import Mathlib

/-!
Verification of the ReservaTrasterosMaxibox floor-plan core: a shallow
embedding of the unit dimension parser (`services/api`), the visual-state
resolver and shape-id matcher (`components/PlanoSVG`), the selection and
filter state (`ReservasPage` / `StorageSelectionStep` / wizard reducer),
the fetch-classification logic and the batch reservation submission,
together with theorems settling the specified properties.

Modelling conventions:
* JS numbers are modelled as rationals; the decimal text the parsers
  consume is represented exactly.  Non-finite parse results (the
  `Infinity` literal accepted by `parseFloat`) are outside the model:
  `jsParseFloat` returns `none` when no finite numeric prefix exists.
* JS strings are Lean `String`s; the character classes used by the
  source's regular expressions (`\d`, `\s`, `[a-zA-Z]`) are modelled by
  the corresponding ASCII ranges.
* A JS `Set` of ids is modelled as a `List String` with membership; the
  insertion-ordered `Set` built by `getShapeIdVariants` is modelled by a
  deduplicating append.
-/

-- ═══ Data model (src/types.ts) ═══════════════════════════════════════

inductive UnitStatus where
  | AVAILABLE
  | OCCUPIED
  | RESERVED
  | MAINTENANCE
deriving DecidableEq, Repr

/-- The enriched unit handed to the floor-plan component. -/
structure StorageUnit where
  id : String
  number : Nat
  shapeId : String
  status : UnitStatus
  type : String
  price : ℚ
  dimensions : ℚ
  dimensionsLabel : String
deriving DecidableEq, Repr

/-- The backend's ambiguous `dimensions` field: absent, a string
("2x1", "6", ...) or — defensively handled by the code — a number. -/
inductive DimField where
  | absent
  | str (s : String)
  | num (q : ℚ)
deriving DecidableEq, Repr

/-- The raw backend unit record (`RawStorageUnit` in src/types.ts). -/
structure RawStorageUnit where
  id : String
  number : Nat
  shapeId : String
  status : UnitStatus
  type : String
  price : ℚ
  dimensions : DimField
  width : Option ℚ
  height : Option ℚ
  length : Option ℚ
  area : Option ℚ
deriving DecidableEq, Repr

-- ═══ Character-level helpers for the source's regexes ════════════════

/-- The `\s` character class, restricted to the ASCII whitespace the
backend data can contain. -/
def isJsSpace (c : Char) : Bool :=
  c == ' ' || c == '\t' || c == '\n' || c == '\r' || c == '\x0b' || c == '\x0c'

/-- Numeric value of a string of decimal digit characters. -/
def natOfDigits (cs : List Char) : Nat :=
  cs.foldl (fun acc c => acc * 10 + (c.toNat - '0'.toNat)) 0

/-- One operand of the dimensions regex: `\d+(?:[.,]\d+)?`.  Returns the
parsed value and the unconsumed rest.  The optional fraction is consumed
only when digits follow the separator, exactly as the regex's optional
group matches. -/
def parseNumToken (cs : List Char) : Option (ℚ × List Char) :=
  let intDigits := cs.takeWhile Char.isDigit
  let rest := cs.dropWhile Char.isDigit
  if intDigits.isEmpty then none
  else
    match rest with
    | sep :: rest2 =>
      if sep == '.' || sep == ',' then
        let fracDigits := rest2.takeWhile Char.isDigit
        let rest3 := rest2.dropWhile Char.isDigit
        if fracDigits.isEmpty then some ((natOfDigits intDigits : ℚ), rest)
        else
          some ((natOfDigits intDigits : ℚ)
            + (natOfDigits fracDigits : ℚ) / (10 : ℚ) ^ fracDigits.length, rest3)
      else some ((natOfDigits intDigits : ℚ), rest)
    | [] => some ((natOfDigits intDigits : ℚ), [])

/-- The `[xX×*]` separator class of the dimensions regex. -/
def isDimSep (c : Char) : Bool :=
  c == 'x' || c == 'X' || c == '×' || c == '*'

/-- The anchored regex `^(\d+(?:[.,]\d+)?)\s*[xX×*]\s*(\d+(?:[.,]\d+)?)$`
of `parseDimensionsString`, returning the two operand values. -/
def matchDimPair (s : String) : Option (ℚ × ℚ) :=
  match parseNumToken s.data with
  | none => none
  | some (a, r1) =>
    match r1.dropWhile isJsSpace with
    | [] => none
    | c :: r2 =>
      if isDimSep c then
        match parseNumToken (r2.dropWhile isJsSpace) with
        | none => none
        | some (b, r3) => if r3.isEmpty then some (a, b) else none
      else none

/-- `String.prototype.replace(',', '.')`: only the first comma is
replaced. -/
def replaceFirstComma : List Char → List Char
  | [] => []
  | c :: rest => if c == ',' then '.' :: rest else c :: replaceFirstComma rest

/-- The unsigned mantissa prefix accepted by `parseFloat`: digits, an
optional point, more digits; at least one digit overall. -/
def parseUnsignedFloatPrefix (cs : List Char) : Option (ℚ × List Char) :=
  let intDigits := cs.takeWhile Char.isDigit
  let r1 := cs.dropWhile Char.isDigit
  match r1 with
  | '.' :: r2 =>
    let fracDigits := r2.takeWhile Char.isDigit
    let r3 := r2.dropWhile Char.isDigit
    if intDigits.isEmpty && fracDigits.isEmpty then none
    else
      some ((natOfDigits intDigits : ℚ)
        + (natOfDigits fracDigits : ℚ) / (10 : ℚ) ^ fracDigits.length, r3)
  | _ => if intDigits.isEmpty then none else some ((natOfDigits intDigits : ℚ), r1)

/-- The optional exponent part of `parseFloat`, consumed only when digits
follow the `e`/`E` (and optional sign). -/
def parseExponentPrefix (cs : List Char) : Option (Int × List Char) :=
  match cs with
  | e :: rest =>
    if e == 'e' || e == 'E' then
      match rest with
      | s :: rest2 =>
        if s == '+' || s == '-' then
          let ds := rest2.takeWhile Char.isDigit
          let r := rest2.dropWhile Char.isDigit
          if ds.isEmpty then none
          else some ((if s == '-' then -(natOfDigits ds : Int) else (natOfDigits ds : Int)), r)
        else
          let ds := rest.takeWhile Char.isDigit
          let r := rest.dropWhile Char.isDigit
          if ds.isEmpty then none else some ((natOfDigits ds : Int), r)
      | [] => none
    else none
  | [] => none

/-- Model of `parseFloat`: skip leading whitespace, optional sign,
longest finite numeric prefix (with optional exponent); `none` models
`NaN`. -/
def jsParseFloat (s : String) : Option ℚ :=
  let cs := s.data.dropWhile isJsSpace
  let signAndRest : ℚ × List Char :=
    match cs with
    | '-' :: r => (-1, r)
    | '+' :: r => (1, r)
    | _ => (1, cs)
  match parseUnsignedFloatPrefix signAndRest.2 with
  | none => none
  | some (v, rest) =>
    match parseExponentPrefix rest with
    | some (e, _) => some (signAndRest.1 * v * (10 : ℚ) ^ e)
    | none => some (signAndRest.1 * v)

-- ═══ DimensionParser (services/api.ts) ═══════════════════════════════

/-- `parseDimensionsString`: try the `NxM` pair (product when both
operands are positive), else the string as a direct number, else 0. -/
def parseDimensionsString (raw : String) : ℚ :=
  let bare : ℚ :=
    match jsParseFloat (String.mk (replaceFirstComma raw.data)) with
    | some num => if 0 < num then num else 0
    | none => 0
  match matchDimPair raw with
  | some (a, b) => if 0 < a ∧ 0 < b then a * b else bare
  | none => bare

/-- Step 5 fallback of `computeDimensions`: `width*height` when both are
positive, else `width*length`. -/
def widthLengthVal (raw : RawStorageUnit) (w : ℚ) : Option ℚ :=
  match raw.length with
  | some l => if 0 < l then some (w * l) else none
  | none => none

def widthHeightVal (raw : RawStorageUnit) : Option ℚ :=
  match raw.width with
  | some w =>
    if 0 < w then
      match raw.height with
      | some h => if 0 < h then some (w * h) else widthLengthVal raw w
      | none => widthLengthVal raw w
    else none
  | none => none

/-- Steps 3–5 of `computeDimensions` (the continuation reached when the
`dimensions` field, string or numeric, gave nothing positive): `area`,
then `width*height` / `width*length`, then the diagnostic 0. -/
def computeDimensionsRest (raw : RawStorageUnit) : ℚ :=
  match raw.area with
  | some a => if 0 < a then a else (widthHeightVal raw).getD 0
  | none => (widthHeightVal raw).getD 0

/-- `computeDimensions`: the five-way fallback chain of services/api.ts.
The trailing `console.warn` of the source's step 5 is a diagnostic with
no data flow; the returned value is 0. -/
def computeDimensions (raw : RawStorageUnit) : ℚ :=
  match raw.dimensions with
  | DimField.str s =>
    if 0 < s.length then
      if 0 < parseDimensionsString s then parseDimensionsString s
      else computeDimensionsRest raw
    else computeDimensionsRest raw
  | DimField.num q => if 0 < q then q else computeDimensionsRest raw
  | DimField.absent => computeDimensionsRest raw

/-- `getDimensionsLabel`: the original string verbatim, else a
synthesized area label. -/
def getDimensionsLabel (raw : RawStorageUnit) : String :=
  match raw.dimensions with
  | DimField.str s => if 0 < s.length then s else toString (computeDimensions raw) ++ " m²"
  | _ => toString (computeDimensions raw) ++ " m²"

/-- `enrichUnit`: raw record to enriched `StorageUnit`. -/
def enrichUnit (raw : RawStorageUnit) : StorageUnit :=
  { id := raw.id, number := raw.number, shapeId := raw.shapeId,
    status := raw.status, type := raw.type, price := raw.price,
    dimensions := computeDimensions raw,
    dimensionsLabel := getDimensionsLabel raw }

-- ═══ Spec-side dimension chain (for the refinement claim C3) ═════════

/-- Modelled from the claim's words, step 1 (string level): a string
matching `<number><sep><number>` yields the operands' product when both
are positive. -/
def specStepPairS (s : String) : Option ℚ :=
  match matchDimPair s with
  | some (a, b) => if 0 < a ∧ 0 < b then some (a * b) else none
  | none => none

/-- Claim's step 2 (string level): the string parsed as a single bare
number, returned when positive. -/
def specStepBareS (s : String) : Option ℚ :=
  match jsParseFloat (String.mk (replaceFirstComma s.data)) with
  | some num => if 0 < num then some num else none
  | none => none

/-- Claim's step 1 on the record: applies only to a string `dimensions`
field. -/
def specStepPair (raw : RawStorageUnit) : Option ℚ :=
  match raw.dimensions with
  | DimField.str s => specStepPairS s
  | _ => none

/-- Claim's step 2 on the record. -/
def specStepBare (raw : RawStorageUnit) : Option ℚ :=
  match raw.dimensions with
  | DimField.str s => specStepBareS s
  | _ => none

/-- Claim's step 3: a numeric `dimensions` field, when positive. -/
def specStepNum (raw : RawStorageUnit) : Option ℚ :=
  match raw.dimensions with
  | DimField.num q => if 0 < q then some q else none
  | _ => none

/-- Claim's step 4: the `area` field, when positive. -/
def specStepArea (raw : RawStorageUnit) : Option ℚ :=
  match raw.area with
  | some a => if 0 < a then some a else none
  | none => none

/-- The claim's resolution chain: first success wins.  Step 5
(`width*height`, else `width*length`) is `widthHeightVal`. -/
def dimChain (raw : RawStorageUnit) : Option ℚ :=
  ((((specStepPair raw).orElse (fun _ => specStepBare raw)).orElse
    (fun _ => specStepNum raw)).orElse
    (fun _ => specStepArea raw)).orElse
    (fun _ => widthHeightVal raw)

/-- The claim's `computeDimensions`: the chain's first success, default
0. -/
def computeDimensionsSpec (raw : RawStorageUnit) : ℚ :=
  (dimChain raw).getD 0

-- ═══ UnitVisualStateResolver (components/PlanoSVG.tsx) ═══════════════

def COLOR_AVAILABLE : String := "#D19E02"

def COLOR_SELECTED : String := "#89D102"

def COLOR_OCCUPIED : String := "#D14402"

def COLOR_FILTERED : String := "#A17902"

/-- `filterByDimensions !== null && unit.dimensions !== filterByDimensions`. -/
def dimFilterExcludes (unit : StorageUnit) (filterByDimensions : Option ℚ) : Bool :=
  match filterByDimensions with
  | some f => decide (unit.dimensions ≠ f)
  | none => false

/-- `maxPrice !== null && unit.price > maxPrice`. -/
def priceFilterExcludes (unit : StorageUnit) (maxPrice : Option ℚ) : Bool :=
  match maxPrice with
  | some m => decide (m < unit.price)
  | none => false

/-- `getFill` (PlanoSVG.tsx, maxPrice-aware version, lines 305–316). -/
def getFill (unit : StorageUnit) (filterByDimensions : Option ℚ)
    (selectedIds : List String) (maxPrice : Option ℚ) : String :=
  if unit.id ∈ selectedIds then COLOR_SELECTED
  else if unit.status ≠ UnitStatus.AVAILABLE then COLOR_OCCUPIED
  else if dimFilterExcludes unit filterByDimensions then COLOR_FILTERED
  else if priceFilterExcludes unit maxPrice then COLOR_FILTERED
  else COLOR_AVAILABLE

/-- `isClickable` (PlanoSVG.tsx lines 318–327).  Note: the selected set
is not an input. -/
def isClickable (unit : StorageUnit) (filterByDimensions : Option ℚ)
    (maxPrice : Option ℚ) : Bool :=
  if unit.status ≠ UnitStatus.AVAILABLE then false
  else if dimFilterExcludes unit filterByDimensions then false
  else if priceFilterExcludes unit maxPrice then false
  else true

/-- An ordered rule list (condition, colour), evaluated first-match-wins:
the claim's reading of the `getFill` precedence. -/
def firstMatchingColor : List (Bool × String) → String → String
  | [], dflt => dflt
  | (cond, color) :: rest, dflt =>
    if cond then color else firstMatchingColor rest dflt

/-- The four `getFill` rules in the claimed order; the default is
AVAILABLE. -/
def fillRules (unit : StorageUnit) (filterByDimensions : Option ℚ)
    (selectedIds : List String) (maxPrice : Option ℚ) : List (Bool × String) :=
  [ (decide (unit.id ∈ selectedIds), COLOR_SELECTED),
    (decide (unit.status ≠ UnitStatus.AVAILABLE), COLOR_OCCUPIED),
    (dimFilterExcludes unit filterByDimensions, COLOR_FILTERED),
    (priceFilterExcludes unit maxPrice, COLOR_FILTERED) ]

-- ═══ SelectionStore (wizard reducer TOGGLE_UNIT / handleToggleUnit) ══

/-- `TOGGLE_UNIT` of the wizard reducer, identical in behaviour to
`handleToggleUnit` of ReservasPage: remove every entry with the unit's
id when one is present, append the unit otherwise. -/
def toggleUnit (selected : List StorageUnit) (unit : StorageUnit) : List StorageUnit :=
  if selected.any (fun u => decide (u.id = unit.id)) then
    selected.filter (fun u => decide (u.id ≠ unit.id))
  else selected ++ [unit]

/-- The identifiers of the selected units. -/
def selectedIdsOf (selected : List StorageUnit) : List String :=
  selected.map (fun u => u.id)

/-- The `el.onclick` handler of PlanoSVG composed with the page's toggle
callback: the toggle fires only when `isClickable` holds. -/
def handleUnitClick (selected : List StorageUnit) (filterByDimensions : Option ℚ)
    (maxPrice : Option ℚ) (unit : StorageUnit) : List StorageUnit :=
  if isClickable unit filterByDimensions maxPrice then toggleUnit selected unit
  else selected

-- ═══ ShapeIdMatcher (getShapeIdVariants) ═════════════════════════════

/-- `String.prototype.toUpperCase`, ASCII. -/
def jsToUpper (s : String) : String := String.mk (s.data.map Char.toUpper)

/-- `String.prototype.trim`: strip leading and trailing whitespace. -/
def jsTrim (s : String) : String :=
  String.mk (((s.data.dropWhile isJsSpace).reverse.dropWhile isJsSpace).reverse)

/-- `String(n).padStart(w, '0')`. -/
def padStartZeros (w : Nat) (s : String) : String :=
  if w ≤ s.length then s else String.mk (List.replicate (w - s.length) '0') ++ s

/-- The regex `^([a-zA-Z]+)\s*0*(\d+)$` of `getShapeIdVariants`, over the
character list: upper-cased letter prefix and the integer value of the
digits (the greedy `0*` with backtracking leaves exactly the integer
value of the digit block).  `Number.isFinite` always holds for the
modelled integer values. -/
def shapeIdNumMatchL (cs : List Char) : Option (String × Nat) :=
  if cs.takeWhile Char.isAlpha ≠ [] ∧
      (cs.dropWhile Char.isAlpha).dropWhile isJsSpace ≠ [] ∧
      ((cs.dropWhile Char.isAlpha).dropWhile isJsSpace).all Char.isDigit then
    some (String.mk ((cs.takeWhile Char.isAlpha).map Char.toUpper),
      natOfDigits ((cs.dropWhile Char.isAlpha).dropWhile isJsSpace))
  else none

def shapeIdNumMatch (raw : String) : Option (String × Nat) :=
  shapeIdNumMatchL raw.data

/-- `Set.add` for the insertion-ordered variants set. -/
def addVariant (vs : List String) (v : String) : List String :=
  if v ∈ vs then vs else vs ++ [v]

/-- `getShapeIdVariants` (PlanoSVG.tsx lines 331–348). -/
def getShapeIdVariants (shapeId : String) : List String :=
  let raw := jsTrim shapeId
  if raw = "" then []
  else
    let base := addVariant (addVariant [] raw) (jsToUpper raw)
    match shapeIdNumMatch raw with
    | some (p, n) =>
      addVariant (addVariant (addVariant base (p ++ toString n))
        (p ++ padStartZeros 2 (toString n))) (p ++ padStartZeros 3 (toString n))
    | none => base

/-- The three zero-padding-normalised variants contributed by the
numeric match (bare, width 2, width 3). -/
def numericVariants (raw : String) : List String :=
  match shapeIdNumMatch raw with
  | some (p, n) =>
    [p ++ toString n, p ++ padStartZeros 2 (toString n), p ++ padStartZeros 3 (toString n)]
  | none => []

/-- The ten decimal digit characters (the regex class `\d`). -/
def digitChars : List Char := ['0', '1', '2', '3', '4', '5', '6', '7', '8', '9']

-- ═══ Fetch classification (services/api.ts fetchApi, PlanoSVG load) ══

/-- `Response.ok`: status in the inclusive range 200–299. -/
def httpOk (status : Nat) : Bool := 200 ≤ status && status ≤ 299

/-- `text.includes(pat)`: substring containment. -/
def listStartsWith : List Char → List Char → Bool
  | [], _ => true
  | _ :: _, [] => false
  | p :: ps, c :: cs => p == c && listStartsWith ps cs

def listIncludes (pat : List Char) : List Char → Bool
  | [] => listStartsWith pat []
  | c :: cs => listStartsWith pat (c :: cs) || listIncludes pat cs

def strIncludes (pat s : String) : Bool := listIncludes pat.data s.data

/-- The branch taken by `fetchApi` on a response.  Constructors carry the
branch identity; only the 304 branch's user-facing message is modelled
verbatim (the non-OK branch derives its message from the body's JSON,
outside this model's scope). -/
inductive ApiOutcome where
  | cachedError (msg : String)
  | httpError (status : Nat)
  | nonJsonError
  | jsonBody (body : String)
deriving DecidableEq, Repr

/-- The response classification of `fetchApi` (services/api.ts lines
44–71): 304 fails first, then non-OK, then a non-JSON content type;
only then is the body delivered. -/
def fetchApiClassify (status : Nat) (contentType : String) (body : String) : ApiOutcome :=
  if status = 304 then
    ApiOutcome.cachedError "El servidor devolvió una respuesta en caché (304). Recarga la página."
  else if ¬ httpOk status then ApiOutcome.httpError status
  else if ¬ strIncludes "application/json" contentType then ApiOutcome.nonJsonError
  else ApiOutcome.jsonBody body

/-- The SVG fetch classification of the PlanoSVG load (the version with
the explicit 304 check): 304 fails, non-OK fails, a body without
`<svg` fails; otherwise the markup is stored. -/
def svgFetchClassify (status : Nat) (body : String) : Except String String :=
  if status = 304 then Except.error "SVG en caché (304)"
  else if ¬ httpOk status then Except.error ("SVG HTTP " ++ toString status)
  else if body = "" ∨ ¬ strIncludes "<svg" body then
    Except.error "La respuesta no contiene un SVG válido"
  else Except.ok body

-- ═══ Batch reservation (FormularioReserva.handleSubmit) ══════════════

/-- The per-unit submission loop: `outcome` is the server's verdict per
unit id; successes collect their ids, failures their unit numbers, in
selection order. -/
def submitReservations (outcome : String → Bool) : List StorageUnit → List String × List Nat
  | [] => ([], [])
  | u :: rest =>
    let acc := submitReservations outcome rest
    if outcome u.id then (u.id :: acc.1, acc.2) else (acc.1, u.number :: acc.2)

/-- `handleReservationSuccess` of ReservasPage: every plan unit whose id
was reserved transitions to RESERVED; the rest are untouched. -/
def applyReservationSuccess (plan : List StorageUnit) (reservedIds : List String) :
    List StorageUnit :=
  plan.map (fun u =>
    if u.id ∈ reservedIds then { u with status := UnitStatus.RESERVED } else u)

-- ═══ Filter state (StorageSelectionStep) ═════════════════════════════

/-- The selection plus the two filters, as held by the selection step
(selection in the wizard store, filters in component state). -/
structure SelectionFilterState where
  selectedUnits : List StorageUnit
  filterByDimensions : Option ℚ
  maxPriceInput : String
deriving DecidableEq, Repr

/-- The dimension-filter button: toggles the clicked bucket. -/
def dimensionFilterClick (st : SelectionFilterState) (d : ℚ) : SelectionFilterState :=
  { st with filterByDimensions :=
      if st.filterByDimensions = some d then none else some d }

/-- The max-price input's onChange: stores the raw text. -/
def setMaxPriceInput (st : SelectionFilterState) (text : String) : SelectionFilterState :=
  { st with maxPriceInput := text }

/-- The `Limpiar` button: clears both filters. -/
def clearFilters (st : SelectionFilterState) : SelectionFilterState :=
  { st with filterByDimensions := none, maxPriceInput := "" }

-- ═══ Zoom state (PlanoSVG scale / fitScale) ══════════════════════════

/-- The manual scale and the auto-fit scale are separate state. -/
structure ZoomState where
  scale : ℚ
  fitScale : ℚ
deriving DecidableEq, Repr

/-- The Ctrl/Cmd+wheel handler:
`min(3, max(0.3, s + (deltaY > 0 ? -0.1 : 0.1)))`. -/
def wheelZoom (st : ZoomState) (deltaY : ℚ) : ZoomState :=
  { st with
    scale := min 3 (max (0.3 : ℚ) (st.scale + (if 0 < deltaY then (-0.1 : ℚ) else 0.1))) }

/-- The `−` button: `max(0.1, s - 0.15)`. -/
def zoomOutClick (st : ZoomState) : ZoomState :=
  { st with scale := max (0.1 : ℚ) (st.scale - 0.15) }

/-- The `+` button: `min(4, s + 0.15)`. -/
def zoomInClick (st : ZoomState) : ZoomState :=
  { st with scale := min 4 (st.scale + 0.15) }

/-- The reset-to-fit button: `setScale(fitScale)`. -/
def resetToFit (st : ZoomState) : ZoomState :=
  { st with scale := st.fitScale }

/-- The auto-fit effect: a positive finite fit sets both scales. -/
def applyAutoFit (st : ZoomState) (fit : ℚ) : ZoomState :=
  if 0 < fit then { scale := fit, fitScale := fit } else st

-- ═══ Concrete sample data for closed instantiations ══════════════════

def sampleAvailableUnit : StorageUnit :=
  { id := "u1", number := 7, shapeId := "T7", status := UnitStatus.AVAILABLE,
    type := "STANDARD", price := 50, dimensions := 2, dimensionsLabel := "2x1" }

def sampleOccupiedUnit : StorageUnit :=
  { id := "u2", number := 8, shapeId := "T8", status := UnitStatus.OCCUPIED,
    type := "STANDARD", price := 60, dimensions := 3, dimensionsLabel := "3x1" }

def unitA : StorageUnit :=
  { id := "a", number := 1, shapeId := "T1", status := UnitStatus.AVAILABLE,
    type := "STANDARD", price := 40, dimensions := 2, dimensionsLabel := "2x1" }

def unitB : StorageUnit :=
  { id := "b", number := 2, shapeId := "T2", status := UnitStatus.AVAILABLE,
    type := "STANDARD", price := 45, dimensions := 2, dimensionsLabel := "2x1" }

def unitC : StorageUnit :=
  { id := "c", number := 3, shapeId := "T3", status := UnitStatus.AVAILABLE,
    type := "STANDARD", price := 55, dimensions := 3, dimensionsLabel := "3x1" }

/-- A server verdict where exactly the middle unit of `[unitA, unitB,
unitC]` fails. -/
def midFailOutcome : String → Bool := fun s => !(s == "b")

/-- A raw record with no usable dimension data at all. -/
def emptyRawUnit : RawStorageUnit :=
  { id := "r0", number := 99, shapeId := "T99", status := UnitStatus.AVAILABLE,
    type := "STANDARD", price := 10, dimensions := DimField.absent,
    width := none, height := none, length := none, area := none }

-- ═══ Helper lemmas ═══════════════════════════════════════════════════

theorem mem_addVariant (vs : List String) (v w : String) (h : v ∈ vs) :
    v ∈ addVariant vs w := by
  unfold addVariant
  split
  · exact h
  · exact List.mem_append_left _ h

theorem self_mem_addVariant (vs : List String) (v : String) : v ∈ addVariant vs v := by
  unfold addVariant
  split
  · assumption
  · exact List.mem_append_right _ (List.mem_singleton.mpr rfl)

theorem any_id_eq_iff (sel : List StorageUnit) (u : StorageUnit) :
    (sel.any (fun v => decide (v.id = u.id)) = true) ↔ u.id ∈ selectedIdsOf sel := by
  simp only [selectedIdsOf, List.any_eq_true, decide_eq_true_eq, List.mem_map]

-- ═══ Claim theorems ══════════════════════════════════════════════════

/-- C2: the fill colour is decided by the first matching rule in the
exact order selected → occupied → dimension-filtered → price-filtered →
available; in particular a selected unit is painted SELECTED whatever
its status and the filters. -/
theorem claim_C2 (unit : StorageUnit) (fd : Option ℚ) (sel : List String) (mp : Option ℚ) :
    getFill unit fd sel mp = firstMatchingColor (fillRules unit fd sel mp) COLOR_AVAILABLE ∧
    (unit.id ∈ sel → getFill unit fd sel mp = COLOR_SELECTED) := by
  constructor
  · simp only [getFill, fillRules, firstMatchingColor, decide_eq_true_eq]
  · intro h
    simp [getFill, h]

theorem claim_C2_witness :
    getFill sampleOccupiedUnit none ["u2"] none = COLOR_SELECTED :=
  (claim_C2 sampleOccupiedUnit none ["u2"] none).2 (by decide)

/-- C10: for a unit outside the selected set, the fill is the AVAILABLE
colour exactly when the unit is clickable under the same filters. -/
theorem claim_C10 (unit : StorageUnit) (fd : Option ℚ) (mp : Option ℚ)
    (sel : List String) (h : unit.id ∉ sel) :
    (getFill unit fd sel mp = COLOR_AVAILABLE ↔ isClickable unit fd mp = true) := by
  unfold getFill isClickable
  rw [if_neg h]
  split_ifs <;> decide

theorem claim_C10_witness :
    getFill sampleAvailableUnit none [] none = COLOR_AVAILABLE ↔
      isClickable sampleAvailableUnit none none = true :=
  claim_C10 sampleAvailableUnit none none [] (by decide)

/-- C1 counterexample: `sampleAvailableUnit` (available, dimension 2) is
in the selected set while the active dimension filter is 3; the claim
says it must be interactive so that a click deselects it, but the code's
`isClickable` ignores the selection: it returns false and the click
leaves the selection unchanged. -/
theorem claim_C1_counterexample :
    sampleAvailableUnit.id ∈ ["u1"] ∧
    isClickable sampleAvailableUnit (some 3) none = false ∧
    handleUnitClick [sampleAvailableUnit] (some 3) none sampleAvailableUnit
      = [sampleAvailableUnit] := by
  decide

/-- C1 amended: `isClickable` does not consult the selected set.  It
returns true exactly when the unit's status is available and the unit
passes both active filters; consequently a unit whose status is not
available is never interactive, filters notwithstanding, and a click on
any non-clickable unit — a selected one excluded by a filter included —
leaves the selection unchanged. -/
theorem claim_C1_amended (u : StorageUnit) (fd mp : Option ℚ) (sel : List StorageUnit) :
    (isClickable u fd mp = true ↔
      (u.status = UnitStatus.AVAILABLE ∧ (∀ f, fd = some f → u.dimensions = f) ∧
        (∀ m, mp = some m → u.price ≤ m))) ∧
    (u.status ≠ UnitStatus.AVAILABLE → isClickable u fd mp = false) ∧
    (isClickable u fd mp = false → handleUnitClick sel fd mp u = sel) := by
  refine ⟨?_, ?_, ?_⟩
  · unfold isClickable dimFilterExcludes priceFilterExcludes
    cases fd <;> cases mp <;> split_ifs <;> simp_all
  · intro h
    simp [isClickable, h]
  · intro h
    simp [handleUnitClick, h]

theorem claim_C1_amended_witness :
    isClickable sampleOccupiedUnit (some 2) none = false ∧
    handleUnitClick [unitA] (some 3) none unitA = [unitA] :=
  ⟨(claim_C1_amended sampleOccupiedUnit (some 2) none []).2.1 (by decide),
   (claim_C1_amended unitA (some 3) none [unitA]).2.2 (by decide)⟩

/-- C8: none of the filter-change operations (toggling the dimension
filter, editing the max-price input, clearing both) touches the selected
set — a selected unit stays selected even when it no longer matches the
newly active filter. -/
theorem claim_C8 (st : SelectionFilterState) (d : ℚ) (text : String) :
    (dimensionFilterClick st d).selectedUnits = st.selectedUnits ∧
    (setMaxPriceInput st text).selectedUnits = st.selectedUnits ∧
    (clearFilters st).selectedUnits = st.selectedUnits :=
  ⟨rfl, rfl, rfl⟩

/-- C6: a 304 response makes both loaders fail with an explicit message;
neither ever treats the response as a successful load. -/
theorem claim_C6 (status : Nat) (contentType body : String) (h : status = 304) :
    fetchApiClassify status contentType body
      = ApiOutcome.cachedError
          "El servidor devolvió una respuesta en caché (304). Recarga la página." ∧
    (∀ b, fetchApiClassify status contentType body ≠ ApiOutcome.jsonBody b) ∧
    svgFetchClassify status body = Except.error "SVG en caché (304)" ∧
    (∀ b, svgFetchClassify status body ≠ Except.ok b) := by
  subst h
  refine ⟨by simp [fetchApiClassify], ?_, by simp [svgFetchClassify], ?_⟩ <;>
    intro b <;> simp [fetchApiClassify, svgFetchClassify]

theorem claim_C6_witness :
    fetchApiClassify 304 "application/json" "cached"
      = ApiOutcome.cachedError
          "El servidor devolvió una respuesta en caché (304). Recarga la página." ∧
    (∀ b, fetchApiClassify 304 "application/json" "cached" ≠ ApiOutcome.jsonBody b) ∧
    svgFetchClassify 304 "cached" = Except.error "SVG en caché (304)" ∧
    (∀ b, svgFetchClassify 304 "cached" ≠ Except.ok b) :=
  claim_C6 304 "application/json" "cached" rfl

/-- C5: toggling the same unit identifier twice returns the selection
set to its original contents (same selected identifiers), and a single
toggle adds the unit's id when absent and removes it when present. -/
theorem mem_selectedIdsOf (sel : List StorageUnit) (x : String) :
    x ∈ selectedIdsOf sel ↔ ∃ v ∈ sel, v.id = x := by
  simp [selectedIdsOf]

/-- C5: toggling the same unit identifier twice returns the selection
set to its original contents (same selected identifiers), and a single
toggle adds the unit's id when absent and removes it when present. -/
theorem claim_C5 (sel : List StorageUnit) (u : StorageUnit) :
    (∀ x : String,
      x ∈ selectedIdsOf (toggleUnit (toggleUnit sel u) u) ↔ x ∈ selectedIdsOf sel) ∧
    (u.id ∈ selectedIdsOf (toggleUnit sel u) ↔ u.id ∉ selectedIdsOf sel) := by
  by_cases hp : u.id ∈ selectedIdsOf sel
  · have hany : sel.any (fun v => decide (v.id = u.id)) = true :=
      (any_id_eq_iff sel u).mpr hp
    have ht1 : toggleUnit sel u = sel.filter (fun v => decide (v.id ≠ u.id)) := by
      simp [toggleUnit, hany]
    have hany2 : (sel.filter (fun v => decide (v.id ≠ u.id))).any
        (fun v => decide (v.id = u.id)) = false := by
      simp only [List.any_eq_false, List.mem_filter, decide_eq_true_eq]
      rintro v ⟨_, hne⟩
      exact hne
    have ht2 : toggleUnit (toggleUnit sel u) u
        = sel.filter (fun v => decide (v.id ≠ u.id)) ++ [u] := by
      rw [ht1]
      simp [toggleUnit, hany2]
    obtain ⟨w, hw, hwid⟩ := (mem_selectedIdsOf sel u.id).mp hp
    constructor
    · intro x
      rw [ht2]
      simp only [mem_selectedIdsOf]
      constructor
      · rintro ⟨v, hv, he⟩
        rcases List.mem_append.mp hv with hvf | hvu
        · exact ⟨v, (List.mem_filter.mp hvf).1, he⟩
        · rw [List.mem_singleton] at hvu
          subst hvu
          exact ⟨w, hw, by rw [hwid, he]⟩
      · rintro ⟨v, hv, he⟩
        by_cases hve : v.id = u.id
        · exact ⟨u, List.mem_append_right _ (List.mem_singleton.mpr rfl),
            by rw [← he, hve]⟩
        · refine ⟨v, List.mem_append_left _ (List.mem_filter.mpr ⟨hv, ?_⟩), he⟩
          simpa using hve
    · rw [ht1]
      simp only [mem_selectedIdsOf]
      constructor
      · rintro ⟨v, hv, he⟩
        have hne := (List.mem_filter.mp hv).2
        simp only [decide_eq_true_eq] at hne
        exact absurd he hne
      · intro hnp
        exact absurd ⟨w, hw, hwid⟩ hnp
  · have hany : sel.any (fun v => decide (v.id = u.id)) = false := by
      cases h : sel.any (fun v => decide (v.id = u.id)) with
      | false => rfl
      | true => exact absurd ((any_id_eq_iff sel u).mp h) hp
    have ht1 : toggleUnit sel u = sel ++ [u] := by
      simp [toggleUnit, hany]
    have hanyT : (sel ++ [u]).any (fun v => decide (v.id = u.id)) = true := by
      simp
    have hfilter : sel.filter (fun v => decide (v.id ≠ u.id)) = sel := by
      apply List.filter_eq_self.mpr
      intro v hv
      simp only [decide_eq_true_eq]
      intro he
      exact hp ((mem_selectedIdsOf sel u.id).mpr ⟨v, hv, he⟩)
    have ht2 : toggleUnit (toggleUnit sel u) u = sel := by
      rw [ht1]
      simp only [toggleUnit, hanyT, if_true, List.filter_append, hfilter]
      simp
    constructor
    · intro x
      rw [ht2]
    · rw [ht1]
      constructor
      · intro _
        exact hp
      · intro _
        simp only [mem_selectedIdsOf]
        exact ⟨u, List.mem_append_right _ (List.mem_singleton.mpr rfl), rfl⟩

theorem claim_C7 (outcome : String → Bool) (units plan : List StorageUnit)
    (reservedIds : List String) :
    (submitReservations outcome units).1
      = (units.filter (fun u => outcome u.id)).map (fun u => u.id) ∧
    (submitReservations outcome units).2
      = (units.filter (fun u => !outcome u.id)).map (fun u => u.number) ∧
    (∀ u, u ∈ plan → u.id ∈ reservedIds →
      { u with status := UnitStatus.RESERVED } ∈ applyReservationSuccess plan reservedIds) ∧
    (∀ u, u ∈ plan → u.id ∉ reservedIds →
      u ∈ applyReservationSuccess plan reservedIds) := by
  refine ⟨?_, ?_, ?_, ?_⟩
  · induction units with
    | nil => rfl
    | cons u rest ih =>
      by_cases h : outcome u.id = true
      · simp [submitReservations, List.filter_cons, h, ih]
      · simp only [Bool.not_eq_true] at h
        simp [submitReservations, List.filter_cons, h, ih]
  · induction units with
    | nil => rfl
    | cons u rest ih =>
      by_cases h : outcome u.id = true
      · simp [submitReservations, List.filter_cons, h, ih]
      · simp only [Bool.not_eq_true] at h
        simp [submitReservations, List.filter_cons, h, ih]
  · intro u hu hid
    have : { u with status := UnitStatus.RESERVED }
        = (fun v => if v.id ∈ reservedIds then { v with status := UnitStatus.RESERVED } else v) u := by
      simp [hid]
    rw [applyReservationSuccess, this]
    exact List.mem_map_of_mem _ hu
  · intro u hu hid
    have hfu : (fun v =>
        if v.id ∈ reservedIds then { v with status := UnitStatus.RESERVED } else v) u = u := by
      simp [hid]
    rw [applyReservationSuccess, ← hfu]
    exact List.mem_map_of_mem _ hu

/-- C7 at the spec's scenario: three selected units, the middle one
fails server-side — exactly two reserved ids, one failure reported by
its unit number, and the plan update reserves exactly those two. -/
theorem claim_C7_witness :
    { unitA with status := UnitStatus.RESERVED }
        ∈ applyReservationSuccess [unitA, unitB, unitC] ["a", "c"] ∧
    unitB ∈ applyReservationSuccess [unitA, unitB, unitC] ["a", "c"] ∧
    (submitReservations midFailOutcome [unitA, unitB, unitC]).1 = ["a", "c"] ∧
    (submitReservations midFailOutcome [unitA, unitB, unitC]).2 = [2] ∧
    applyReservationSuccess [unitA, unitB, unitC] ["a", "c"]
      = [{ unitA with status := UnitStatus.RESERVED }, unitB,
         { unitC with status := UnitStatus.RESERVED }] :=
  ⟨(claim_C7 midFailOutcome [] [unitA, unitB, unitC] ["a", "c"]).2.2.1 unitA
      (by decide) (by decide),
   (claim_C7 midFailOutcome [] [unitA, unitB, unitC] ["a", "c"]).2.2.2 unitB
      (by decide) (by decide),
   by decide, by decide, by decide⟩

/-- C9: the wheel gesture and the zoom buttons move the manual scale only
by their fixed increments (clamping at their bounds), keep it inside the
fixed range 0.1–4 (the wheel inside 0.3–3 unconditionally), never touch
the distinct auto-fit scale, and reset-to-fit restores exactly the
auto-fit value. -/
theorem claim_C9 (st : ZoomState) (deltaY : ℚ) :
    (0.1 ≤ st.scale → st.scale ≤ 4 →
      (0.1 ≤ (wheelZoom st deltaY).scale ∧ (wheelZoom st deltaY).scale ≤ 4) ∧
      (0.1 ≤ (zoomOutClick st).scale ∧ (zoomOutClick st).scale ≤ 4) ∧
      (0.1 ≤ (zoomInClick st).scale ∧ (zoomInClick st).scale ≤ 4)) ∧
    ((0.3 : ℚ) ≤ (wheelZoom st deltaY).scale ∧ (wheelZoom st deltaY).scale ≤ 3) ∧
    ((wheelZoom st deltaY).scale = st.scale + 0.1 ∨
      (wheelZoom st deltaY).scale = st.scale - 0.1 ∨
      (wheelZoom st deltaY).scale = 0.3 ∨ (wheelZoom st deltaY).scale = 3) ∧
    ((zoomInClick st).scale = st.scale + 0.15 ∨ (zoomInClick st).scale = 4) ∧
    ((zoomOutClick st).scale = st.scale - 0.15 ∨ (zoomOutClick st).scale = 0.1) ∧
    (wheelZoom st deltaY).fitScale = st.fitScale ∧
    (zoomInClick st).fitScale = st.fitScale ∧
    (zoomOutClick st).fitScale = st.fitScale ∧
    (resetToFit st).scale = st.fitScale ∧
    (resetToFit st).fitScale = st.fitScale := by
  have hws : (wheelZoom st deltaY).scale
      = min 3 (max (0.3 : ℚ) (st.scale + (if 0 < deltaY then (-0.1 : ℚ) else 0.1))) := rfl
  have hw1 : (0.3 : ℚ) ≤ (wheelZoom st deltaY).scale := by
    rw [hws]
    exact le_min (by norm_num) (le_max_left _ _)
  have hw2 : (wheelZoom st deltaY).scale ≤ 3 := by
    rw [hws]
    exact min_le_left _ _
  refine ⟨?_, ⟨hw1, hw2⟩, ?_, ?_, ?_, rfl, rfl, rfl, rfl, rfl⟩
  · intro h1 h2
    refine ⟨⟨by linarith, by linarith⟩, ⟨?_, ?_⟩, ⟨?_, ?_⟩⟩
    · show (0.1 : ℚ) ≤ max (0.1 : ℚ) (st.scale - 0.15)
      exact le_max_left _ _
    · show max (0.1 : ℚ) (st.scale - 0.15) ≤ 4
      exact max_le (by norm_num) (by linarith)
    · show (0.1 : ℚ) ≤ min (4 : ℚ) (st.scale + 0.15)
      exact le_min (by norm_num) (by linarith)
    · show min (4 : ℚ) (st.scale + 0.15) ≤ 4
      exact min_le_left _ _
  · rcases le_total (st.scale + (if 0 < deltaY then (-0.1 : ℚ) else 0.1)) 0.3 with h | h
    · right; right; left
      rw [hws, max_eq_left h, min_eq_right (by norm_num : (0.3 : ℚ) ≤ 3)]
    · rw [hws, max_eq_right h]
      rcases le_total (st.scale + (if 0 < deltaY then (-0.1 : ℚ) else 0.1)) 3 with h2 | h2
      · rw [min_eq_right h2]
        by_cases hd : 0 < deltaY
        · right; left
          rw [if_pos hd]
          ring
        · left
          rw [if_neg hd]
      · right; right; right
        exact min_eq_left h2
  · rcases le_total (st.scale + 0.15) 4 with h | h
    · left
      show min (4 : ℚ) (st.scale + 0.15) = st.scale + 0.15
      exact min_eq_right h
    · right
      show min (4 : ℚ) (st.scale + 0.15) = 4
      exact min_eq_left h
  · rcases le_total (st.scale - 0.15) 0.1 with h | h
    · right
      show max (0.1 : ℚ) (st.scale - 0.15) = 0.1
      exact max_eq_left h
    · left
      show max (0.1 : ℚ) (st.scale - 0.15) = st.scale - 0.15
      exact max_eq_right h

theorem claim_C9_witness :
    (0.1 ≤ (wheelZoom ⟨1, 2⟩ 1).scale ∧ (wheelZoom ⟨1, 2⟩ 1).scale ≤ 4) ∧
    (0.1 ≤ (zoomOutClick ⟨1, 2⟩).scale ∧ (zoomOutClick ⟨1, 2⟩).scale ≤ 4) ∧
    (0.1 ≤ (zoomInClick ⟨1, 2⟩).scale ∧ (zoomInClick ⟨1, 2⟩).scale ≤ 4) :=
  (claim_C9 ⟨1, 2⟩ 1).1 (by norm_num) (by norm_num)

theorem shapeIdNumMatch_mk (l : List Char) :
    shapeIdNumMatch (String.mk l) = shapeIdNumMatchL l := rfl

theorem mem_digitChars_isDigit (c : Char) (h : c ∈ digitChars) : c.isDigit = true := by
  simp only [digitChars, List.mem_cons, List.not_mem_nil, or_false] at h
  rcases h with rfl | rfl | rfl | rfl | rfl | rfl | rfl | rfl | rfl | rfl <;> decide

theorem mem_digitChars_not_alpha (c : Char) (h : c ∈ digitChars) : c.isAlpha = false := by
  simp only [digitChars, List.mem_cons, List.not_mem_nil, or_false] at h
  rcases h with rfl | rfl | rfl | rfl | rfl | rfl | rfl | rfl | rfl | rfl <;> decide

theorem mem_digitChars_not_space (c : Char) (h : c ∈ digitChars) : isJsSpace c = false := by
  simp only [digitChars, List.mem_cons, List.not_mem_nil, or_false] at h
  rcases h with rfl | rfl | rfl | rfl | rfl | rfl | rfl | rfl | rfl | rfl <;> decide

theorem takeWhile_head_neg (p : Char → Bool) (a : Char) (t : List Char) (h : p a = false) :
    (a :: t).takeWhile p = [] := by
  simp [List.takeWhile_cons, h]

theorem dropWhile_head_neg (p : Char → Bool) (a : Char) (t : List Char) (h : p a = false) :
    (a :: t).dropWhile p = a :: t := by
  simp [List.dropWhile_cons, h]

theorem takeWhile_all_append (p : Char → Bool) (xs ys : List Char)
    (h : ∀ x ∈ xs, p x = true) :
    (xs ++ ys).takeWhile p = xs ++ ys.takeWhile p := by
  induction xs with
  | nil => simp
  | cons a t ih =>
    have ha := h a (List.mem_cons_self a t)
    simp only [List.cons_append, List.takeWhile_cons, ha, if_true]
    rw [ih (fun x hx => h x (List.mem_cons_of_mem a hx))]

theorem dropWhile_all_append (p : Char → Bool) (xs ys : List Char)
    (h : ∀ x ∈ xs, p x = true) :
    (xs ++ ys).dropWhile p = ys.dropWhile p := by
  induction xs with
  | nil => simp
  | cons a t ih =>
    have ha := h a (List.mem_cons_self a t)
    simp only [List.cons_append, List.dropWhile_cons, ha, if_true]
    exact ih (fun x hx => h x (List.mem_cons_of_mem a hx))

theorem natOfDigits_cons_zero (t : List Char) : natOfDigits ('0' :: t) = natOfDigits t := by
  show List.foldl _ (0 * 10 + ('0'.toNat - '0'.toNat)) t = List.foldl _ 0 t
  norm_num

theorem natOfDigits_replicate_zero (k : Nat) (ds : List Char) :
    natOfDigits (List.replicate k '0' ++ ds) = natOfDigits ds := by
  induction k with
  | zero => simp
  | succ n ih => rw [List.replicate_succ, List.cons_append, natOfDigits_cons_zero, ih]

theorem shapeIdNumMatchL_zero_pad (pre : List Char) (k : Nat) (ds : List Char)
    (hpre : pre ≠ []) (halpha : ∀ c ∈ pre, c.isAlpha = true)
    (hds : ds ≠ []) (hdig : ∀ c ∈ ds, c ∈ digitChars) :
    shapeIdNumMatchL (pre ++ (List.replicate k '0' ++ ds))
      = some (String.mk (pre.map Char.toUpper), natOfDigits ds) := by
  have hheadfacts : ∀ p : Char → Bool, p '0' = false → (∀ c ∈ ds, p c = false) →
      (List.replicate k '0' ++ ds).takeWhile p = [] ∧
      (List.replicate k '0' ++ ds).dropWhile p = List.replicate k '0' ++ ds := by
    intro p hp0 hpds
    cases k with
    | zero =>
      obtain ⟨d, ds', rfl⟩ := List.exists_cons_of_ne_nil hds
      refine ⟨?_, ?_⟩
      · simpa using takeWhile_head_neg p d ds' (hpds d (List.mem_cons_self d ds'))
      · simpa using dropWhile_head_neg p d ds' (hpds d (List.mem_cons_self d ds'))
    | succ n =>
      rw [List.replicate_succ, List.cons_append]
      exact ⟨takeWhile_head_neg p '0' _ hp0, dropWhile_head_neg p '0' _ hp0⟩
  obtain ⟨htakeAlpha, hdropAlpha⟩ := hheadfacts Char.isAlpha (by decide)
    (fun c hc => mem_digitChars_not_alpha c (hdig c hc))
  obtain ⟨hdropSpaceTake, hdropSpace⟩ := hheadfacts isJsSpace (by decide)
    (fun c hc => mem_digitChars_not_space c (hdig c hc))
  have h1 : (pre ++ (List.replicate k '0' ++ ds)).takeWhile Char.isAlpha = pre := by
    rw [takeWhile_all_append Char.isAlpha pre _ halpha, htakeAlpha, List.append_nil]
  have h2 : (pre ++ (List.replicate k '0' ++ ds)).dropWhile Char.isAlpha
      = List.replicate k '0' ++ ds := by
    rw [dropWhile_all_append Char.isAlpha pre _ halpha, hdropAlpha]
  have hall : (List.replicate k '0' ++ ds).all Char.isDigit = true := by
    rw [List.all_eq_true]
    intro c hc
    rcases List.mem_append.mp hc with hz | hd
    · rw [List.eq_of_mem_replicate hz]
      decide
    · exact mem_digitChars_isDigit c (hdig c hd)
  have hne : List.replicate k '0' ++ ds ≠ [] := by
    intro h
    exact hds (List.append_eq_nil.mp h).2
  unfold shapeIdNumMatchL
  rw [h1, h2, hdropSpace, if_pos ⟨hpre, hne, hall⟩, natOfDigits_replicate_zero]

/-- C4: every non-blank shape id's variant set contains the upper-cased
(trimmed) form; for letters-then-digits ids the numeric match normalises
case and leading zeros, so `T012` and `T12` produce the same numeric
match and hence the same bare/width-2/width-3 padded variants; and
`variantsOf "t12"` contains `"T12"`. -/
theorem claim_C4 :
    (∀ s : String, jsTrim s ≠ "" → jsToUpper (jsTrim s) ∈ getShapeIdVariants s) ∧
    (∀ (pre ds : List Char) (k : Nat),
      pre ≠ [] → (∀ c ∈ pre, c.isAlpha = true) → ds ≠ [] →
      (∀ c ∈ ds, c ∈ digitChars) →
      shapeIdNumMatch (String.mk (pre ++ (List.replicate k '0' ++ ds)))
        = shapeIdNumMatch (String.mk (pre ++ ds))) ∧
    numericVariants "T012" = numericVariants "T12" ∧
    "T12" ∈ getShapeIdVariants "t12" := by
  refine ⟨?_, ?_, by decide, by decide⟩
  · intro s hs
    have hbase : jsToUpper (jsTrim s)
        ∈ addVariant (addVariant [] (jsTrim s)) (jsToUpper (jsTrim s)) :=
      self_mem_addVariant _ _
    unfold getShapeIdVariants
    rw [if_neg hs]
    cases h : shapeIdNumMatch (jsTrim s) with
    | none => simpa [h] using hbase
    | some pn =>
      obtain ⟨p, n⟩ := pn
      simp only [h]
      exact mem_addVariant _ _ _ (mem_addVariant _ _ _ (mem_addVariant _ _ _ hbase))
  · intro pre ds k hpre halpha hds hdig
    rw [shapeIdNumMatch_mk, shapeIdNumMatch_mk,
      shapeIdNumMatchL_zero_pad pre k ds hpre halpha hds hdig]
    have h0 := shapeIdNumMatchL_zero_pad pre 0 ds hpre halpha hds hdig
    simp only [List.replicate, List.nil_append] at h0
    rw [h0]

theorem claim_C4_witness :
    jsToUpper (jsTrim "t12") ∈ getShapeIdVariants "t12" ∧
    shapeIdNumMatch (String.mk (['T'] ++ (List.replicate 1 '0' ++ ['1', '2'])))
      = shapeIdNumMatch (String.mk (['T'] ++ ['1', '2'])) :=
  ⟨claim_C4.1 "t12" (by decide),
   claim_C4.2.1 ['T'] ['1', '2'] 1 (by decide) (by decide) (by decide) (by decide)⟩

theorem orElse_eq_some (x : Option ℚ) (f : Unit → Option ℚ) (v : ℚ)
    (h : x.orElse f = some v) : x = some v ∨ f () = some v := by
  cases x with
  | some a => left; exact h
  | none => right; exact h

theorem widthLengthVal_pos (raw : RawStorageUnit) (w v : ℚ) (hw : 0 < w)
    (h : widthLengthVal raw w = some v) : 0 < v := by
  unfold widthLengthVal at h
  split at h
  · split_ifs at h with hl0
    injection h with h
    subst h
    exact mul_pos hw hl0
  · cases h

theorem widthHeightVal_pos (raw : RawStorageUnit) (v : ℚ)
    (h : widthHeightVal raw = some v) : 0 < v := by
  unfold widthHeightVal at h
  split at h
  · split_ifs at h with hw0
    split at h
    · split_ifs at h with hh0
      · injection h with h
        subst h
        exact mul_pos hw0 hh0
      · exact widthLengthVal_pos raw _ v hw0 h
    · exact widthLengthVal_pos raw _ v hw0 h
  · cases h

theorem specStepPairS_pos (s : String) (v : ℚ) (h : specStepPairS s = some v) : 0 < v := by
  unfold specStepPairS at h
  split at h
  · split_ifs at h with hab
    injection h with h
    subst h
    exact mul_pos hab.1 hab.2
  · cases h

theorem specStepBareS_pos (s : String) (v : ℚ) (h : specStepBareS s = some v) : 0 < v := by
  unfold specStepBareS at h
  split at h
  · split_ifs at h with hn
    injection h with h
    subst h
    exact hn
  · cases h

theorem specStepPair_pos (raw : RawStorageUnit) (v : ℚ) (h : specStepPair raw = some v) :
    0 < v := by
  unfold specStepPair at h
  split at h
  · exact specStepPairS_pos _ v h
  · cases h

theorem specStepBare_pos (raw : RawStorageUnit) (v : ℚ) (h : specStepBare raw = some v) :
    0 < v := by
  unfold specStepBare at h
  split at h
  · exact specStepBareS_pos _ v h
  · cases h

theorem specStepNum_pos (raw : RawStorageUnit) (v : ℚ) (h : specStepNum raw = some v) :
    0 < v := by
  unfold specStepNum at h
  split at h
  · split_ifs at h with hq
    injection h with h
    subst h
    exact hq
  · cases h

theorem specStepArea_pos (raw : RawStorageUnit) (v : ℚ) (h : specStepArea raw = some v) :
    0 < v := by
  unfold specStepArea at h
  split at h
  · split_ifs at h with h0
    injection h with h
    subst h
    exact h0
  · cases h

theorem dimChain_pos (raw : RawStorageUnit) (v : ℚ) (h : dimChain raw = some v) : 0 < v := by
  unfold dimChain at h
  rcases orElse_eq_some _ _ v h with h3 | hWH
  · rcases orElse_eq_some _ _ v h3 with h2 | hA
    · rcases orElse_eq_some _ _ v h2 with h1 | hN
      · rcases orElse_eq_some _ _ v h1 with hP | hB
        · exact specStepPair_pos raw v hP
        · exact specStepBare_pos raw v hB
      · exact specStepNum_pos raw v hN
    · exact specStepArea_pos raw v hA
  · exact widthHeightVal_pos raw v hWH

theorem computeDimensionsSpec_nonneg (raw : RawStorageUnit) :
    0 ≤ computeDimensionsSpec raw := by
  unfold computeDimensionsSpec
  cases h : dimChain raw with
  | none => simp
  | some v => simpa using le_of_lt (dimChain_pos raw v h)

theorem merged_pos (s : String) (v : ℚ)
    (h : (specStepPairS s).orElse (fun _ => specStepBareS s) = some v) : 0 < v := by
  rcases orElse_eq_some _ _ v h with h' | h'
  · exact specStepPairS_pos s v h'
  · exact specStepBareS_pos s v h'

theorem parse_eq_merge (s : String) :
    parseDimensionsString s
      = ((specStepPairS s).orElse (fun _ => specStepBareS s)).getD 0 := by
  unfold parseDimensionsString specStepPairS specStepBareS
  cases hm : matchDimPair s with
  | none =>
    cases hj : jsParseFloat (String.mk (replaceFirstComma s.data)) with
    | none => rfl
    | some num =>
      dsimp only
      split_ifs <;> rfl
  | some ab =>
    obtain ⟨a, b⟩ := ab
    cases hj : jsParseFloat (String.mk (replaceFirstComma s.data)) with
    | none =>
      dsimp only
      split_ifs <;> rfl
    | some num =>
      dsimp only
      split_ifs <;> rfl

theorem steps_empty (s : String) (h : s.data = []) :
    specStepPairS s = none ∧ specStepBareS s = none := by
  have h1 : matchDimPair s = none := by
    unfold matchDimPair parseNumToken
    rw [h]
    rfl
  have h2 : jsParseFloat (String.mk (replaceFirstComma s.data)) = none := by
    rw [h]
    rfl
  exact ⟨by simp [specStepPairS, h1], by simp [specStepBareS, h2]⟩

theorem restChain_eq (raw : RawStorageUnit) :
    computeDimensionsRest raw
      = ((specStepArea raw).orElse (fun _ => widthHeightVal raw)).getD 0 := by
  unfold computeDimensionsRest specStepArea
  cases ha : raw.area with
  | none => rfl
  | some a =>
    dsimp only
    split_ifs <;> rfl

/-- C3: `computeDimensions` equals the claim's five-step first-success
chain — pair-string product (both operands positive), bare-number
string, positive numeric `dimensions` field, positive `area`,
`width*height` (else `width*length`) — its result is never negative,
and when every step fails it returns exactly 0 (it is a total function:
no exception). -/
theorem claim_C3 (raw : RawStorageUnit) :
    computeDimensions raw = computeDimensionsSpec raw ∧
    0 ≤ computeDimensions raw ∧
    (specStepPair raw = none → specStepBare raw = none → specStepNum raw = none →
      specStepArea raw = none → widthHeightVal raw = none →
      computeDimensions raw = 0) := by
  have heq : computeDimensions raw = computeDimensionsSpec raw := by
    unfold computeDimensionsSpec dimChain
    cases hdim : raw.dimensions with
    | absent =>
      have hP : specStepPair raw = none := by
        unfold specStepPair; rw [hdim]
      have hB : specStepBare raw = none := by
        unfold specStepBare; rw [hdim]
      have hN : specStepNum raw = none := by
        unfold specStepNum; rw [hdim]
      have hcd : computeDimensions raw = computeDimensionsRest raw := by
        unfold computeDimensions; rw [hdim]
      rw [hcd, restChain_eq]
      simp only [hP, hB, hN]
      rfl
    | num q =>
      have hP : specStepPair raw = none := by
        unfold specStepPair; rw [hdim]
      have hB : specStepBare raw = none := by
        unfold specStepBare; rw [hdim]
      have hN : specStepNum raw = if 0 < q then some q else none := by
        unfold specStepNum; rw [hdim]
      have hcd : computeDimensions raw
          = if 0 < q then q else computeDimensionsRest raw := by
        unfold computeDimensions; rw [hdim]
      rw [hcd]
      simp only [hP, hB, hN]
      split_ifs with hq
      · rfl
      · rw [restChain_eq]
        rfl
    | str s =>
      have hP : specStepPair raw = specStepPairS s := by
        unfold specStepPair; rw [hdim]
      have hB : specStepBare raw = specStepBareS s := by
        unfold specStepBare; rw [hdim]
      have hN : specStepNum raw = none := by
        unfold specStepNum; rw [hdim]
      have hcd : computeDimensions raw
          = if 0 < s.length then
              if 0 < parseDimensionsString s then parseDimensionsString s
              else computeDimensionsRest raw
            else computeDimensionsRest raw := by
        unfold computeDimensions; rw [hdim]
      rw [hcd]
      simp only [hP, hB, hN]
      by_cases hlen : 0 < s.length
      · rw [if_pos hlen]
        cases hm : (specStepPairS s).orElse (fun _ => specStepBareS s) with
        | some v =>
          have hv : parseDimensionsString s = v := by
            rw [parse_eq_merge s, hm]
            rfl
          rw [hv, if_pos (merged_pos s v hm)]
          rfl
        | none =>
          have hv : parseDimensionsString s = 0 := by
            rw [parse_eq_merge s, hm]
            rfl
          rw [hv, if_neg (by norm_num), restChain_eq]
          rfl
      · rw [if_neg hlen]
        have hlen0 : s.data.length = 0 := by
          have hz : s.length = 0 := by omega
          exact hz
        obtain ⟨hP0, hB0⟩ := steps_empty s (List.eq_nil_of_length_eq_zero hlen0)
        rw [hP0, hB0, restChain_eq]
        rfl
  refine ⟨heq, ?_, ?_⟩
  · rw [heq]
    exact computeDimensionsSpec_nonneg raw
  · intro h1 h2 h3 h4 h5
    rw [heq]
    unfold computeDimensionsSpec dimChain
    simp only [h1, h2, h3, h4, h5]
    rfl

theorem claim_C3_witness : computeDimensions emptyRawUnit = 0 :=
  (claim_C3 emptyRawUnit).2.2 rfl rfl rfl rfl rfl
